import Mathlib

/-!
A shallow embedding of `src/net/connection.rs` from the aerospike-client-rust
repository, together with theorems settling the specification claims about it.

Modelling conventions:
* Wall-clock instants (`std::time::Instant`) are natural numbers; every
  operation that calls `Instant::now()` in the source receives the current
  instant `now : Nat` as an explicit argument.
* `Duration` is a natural number of time units.
* A TCP socket is a record holding the bytes still available for reading,
  the bytes written so far, a flag saying whether writes succeed (the
  environment decides this), and a shutdown flag.
* Rust methods taking `&mut self` and returning `Result<T>` become functions
  `Connection → Connection × Except Err T`: the returned connection reflects
  all mutations performed up to the point of success or failure, exactly as
  the borrowed `self` does in Rust.
* The authentication collaborator (`AdminCommand::authenticate`) and the
  results of the fallible external calls made during construction
  (`TcpStream::connect`, `rustls::ClientConnection::new`) are parameters of
  the embedding, so theorems quantify over every possible behaviour of the
  environment.
-/

namespace Aerospike

/-- Error kinds surfaced by the connection code. -/
inductive Err where
  | ioError
  | connectionError
  | authenticationError
  | tlsError
  deriving DecidableEq, Repr

/-- A TCP socket: the byte stream still available for reading, the bytes
written so far, whether writes currently succeed, and whether the socket has
been shut down. Bytes are modelled as natural numbers. -/
structure TcpSock where
  input : List Nat
  output : List Nat
  writeOk : Bool
  shutdown : Bool
  deriving DecidableEq, Repr

/-- `Read::read_exact` on a socket: succeeds returning exactly `n` bytes when
at least `n` are available, otherwise fails with an I/O error (end of stream)
leaving the connection-level state untouched. -/
def TcpSock.read_exact (t : TcpSock) (n : Nat) : TcpSock × Except Err (List Nat) :=
  if n ≤ t.input.length then
    ({ t with input := t.input.drop n }, Except.ok (t.input.take n))
  else
    (t, Except.error Err.ioError)

/-- `Write::write_all` on a socket: writes all the given bytes, or fails with
an I/O error when the transport cannot accept them. -/
def TcpSock.write_all (t : TcpSock) (buf : List Nat) : TcpSock × Except Err Unit :=
  if t.writeOk then
    ({ t with output := t.output ++ buf }, Except.ok ())
  else
    (t, Except.error Err.ioError)

/-- The two transport variants of `enum Stream`: a TLS stream
(`StreamOwned<ClientConnection, TcpStream>`, modelled by its underlying
socket carrying plaintext application bytes) or a plain `TcpStream`. -/
inductive Stream where
  | tls (s : TcpSock)
  | plain (s : TcpSock)
  deriving DecidableEq, Repr

/-- Dispatch of `read_exact` over the two transport variants. -/
def Stream.read_exact (s : Stream) (n : Nat) : Stream × Except Err (List Nat) :=
  match s with
  | .tls t => let (t', r) := t.read_exact n; (.tls t', r)
  | .plain t => let (t', r) := t.read_exact n; (.plain t', r)

/-- Dispatch of `write_all` over the two transport variants. -/
def Stream.write_all (s : Stream) (buf : List Nat) : Stream × Except Err Unit :=
  match s with
  | .tls t => let (t', r) := t.write_all buf; (.tls t', r)
  | .plain t => let (t', r) := t.write_all buf; (.plain t', r)

/-- `Connection::close`: best-effort bidirectional shutdown of the underlying
socket of either variant; errors from `shutdown` are discarded. -/
def Stream.close (s : Stream) : Stream :=
  match s with
  | .tls t => .tls { t with shutdown := true }
  | .plain t => .plain { t with shutdown := true }

/-- Whether the underlying socket of the stream has been shut down. -/
def Stream.isShutdown (s : Stream) : Bool :=
  match s with
  | .tls t => t.shutdown
  | .plain t => t.shutdown

/-- Number of bytes still available for reading on the stream. -/
def Stream.avail (s : Stream) : Nat :=
  match s with
  | .tls t => t.input.length
  | .plain t => t.input.length

/-- The first `n` bytes available for reading on the stream. -/
def Stream.peek (s : Stream) (n : Nat) : List Nat :=
  match s with
  | .tls t => t.input.take n
  | .plain t => t.input.take n

/-- Modelled from the spec: the staging byte buffer (`commands::buffer::Buffer`),
whose source is not part of the excerpt. The spec describes it as holding a
raw backing byte area (`data_buffer`), an internal read offset, and a
reclaim-threshold policy, consumed here only as `new(reclaim_threshold)`,
`resize_buffer(size)` and `reset_offset()`. -/
structure Buffer where
  data_buffer : List Nat
  offset : Nat
  reclaim_threshold : Nat
  deriving DecidableEq, Repr

/-- Modelled from the spec: `Buffer::new(reclaim_threshold)` creates a fresh
staging buffer governed by the given reclaim threshold. -/
def Buffer.new (reclaim_threshold : Nat) : Buffer :=
  { data_buffer := [], offset := 0, reclaim_threshold := reclaim_threshold }

/-- Modelled from the spec: `Buffer::resize_buffer(size)` resizes the backing
byte area to exactly `size` bytes (growing with zero bytes or shrinking per
the reclaim policy); it reports success through a `Result`. -/
def Buffer.resize_buffer (b : Buffer) (size : Nat) : Except Err Buffer :=
  Except.ok { b with
    data_buffer := b.data_buffer.take size ++
      List.replicate (size - b.data_buffer.length) 0 }

/-- Modelled from the spec: `Buffer::reset_offset()` resets the buffer's
internal read offset to 0; it reports success through a `Result`. -/
def Buffer.reset_offset (b : Buffer) : Except Err Buffer :=
  Except.ok { b with offset := 0 }

/-- The fields of `struct Connection`. -/
structure Connection where
  timeout : Option Nat
  idle_timeout : Option Nat
  idle_deadline : Option Nat
  conn : Stream
  bytes_read : Nat
  buffer : Buffer
  deriving DecidableEq, Repr

/-- `ClientPolicy`, restricted to the fields `Connection::new` reads. The TLS
configuration is opaque here (only its presence matters); credentials are the
optional `(user, password)` pair. -/
structure ClientPolicy where
  tls_config : Option Unit
  buffer_reclaim_threshold : Nat
  timeout : Option Nat
  idle_timeout : Option Nat
  user_password : Option (String × String)
  deriving DecidableEq, Repr

/-- `Connection::refresh`: clear the idle deadline, then, when an idle timeout
is configured, set the deadline to now + idle timeout. -/
def Connection.refresh (c : Connection) (now : Nat) : Connection :=
  { c with idle_deadline :=
      match c.idle_timeout with
      | none => none
      | some idle_to => some (now + idle_to) }

/-- `Connection::is_idle`: true iff an idle deadline is present and the
current instant is at or past it (`Instant::now() >= idle_dl`). -/
def Connection.is_idle (c : Connection) (now : Nat) : Bool :=
  match c.idle_deadline with
  | none => false
  | some idle_dl => now ≥ idle_dl

/-- `Connection::flush`: write the full contents of the staging buffer to the
transport, then refresh the idle deadline. -/
def Connection.flush (c : Connection) (now : Nat) : Connection × Except Err Unit :=
  match c.conn.write_all c.buffer.data_buffer with
  | (s, Except.error e) => ({ c with conn := s }, Except.error e)
  | (s, Except.ok ()) => (({ c with conn := s }).refresh now, Except.ok ())

/-- `Connection::write`: write exactly the given bytes to the transport, then
refresh the idle deadline. -/
def Connection.write (c : Connection) (buf : List Nat) (now : Nat) :
    Connection × Except Err Unit :=
  match c.conn.write_all buf with
  | (s, Except.error e) => ({ c with conn := s }, Except.error e)
  | (s, Except.ok ()) => (({ c with conn := s }).refresh now, Except.ok ())

/-- `Connection::read`: read exactly `bufLen` bytes (the length of the caller's
slice) from the transport, add `bufLen` to `bytes_read`, refresh the idle
deadline, and return the bytes placed in the caller's slice. -/
def Connection.read (c : Connection) (bufLen : Nat) (now : Nat) :
    Connection × Except Err (List Nat) :=
  match c.conn.read_exact bufLen with
  | (s, Except.error e) => ({ c with conn := s }, Except.error e)
  | (s, Except.ok bytes) =>
      ((({ c with conn := s, bytes_read := c.bytes_read + bufLen }).refresh now),
        Except.ok bytes)

/-- `Connection::read_buffer`: resize the staging buffer to `size` bytes, read
exactly `size` bytes from the transport into it, add `size` to `bytes_read`,
reset the buffer's read offset, and refresh the idle deadline. Each fallible
step propagates its error immediately (the `?` operator), leaving the
mutations already performed in place. -/
def Connection.read_buffer (c : Connection) (size : Nat) (now : Nat) :
    Connection × Except Err Unit :=
  match c.buffer.resize_buffer size with
  | Except.error e => (c, Except.error e)
  | Except.ok b =>
    let c := { c with buffer := b }
    match c.conn.read_exact size with
    | (s, Except.error e) => ({ c with conn := s }, Except.error e)
    | (s, Except.ok bytes) =>
      let c := { c with conn := s,
                        buffer := { c.buffer with data_buffer := bytes } }
      let c := { c with bytes_read := c.bytes_read + size }
      match c.buffer.reset_offset with
      | Except.error e => (c, Except.error e)
      | Except.ok b2 => (({ c with buffer := b2 }).refresh now, Except.ok ())

/-- `Connection::close`: shut down the underlying socket. -/
def Connection.close (c : Connection) : Connection :=
  { c with conn := c.conn.close }

/-- `Connection::bookmark`: reset the bytes-read counter to zero. -/
def Connection.bookmark (c : Connection) : Connection :=
  { c with bytes_read := 0 }

/-- The behaviour of the external authentication collaborator
`AdminCommand::authenticate(&mut conn, user, password)`: it drives I/O through
the connection and reports success or failure. -/
def AuthCmd : Type :=
  Connection → String → String → Connection × Except Err Unit

/-- `Connection::authenticate`: when credentials are present, run the external
authentication collaborator; on failure close the socket and propagate the
error. When no credentials are configured, do nothing and succeed. -/
def Connection.authenticate (c : Connection) (authCmd : AuthCmd)
    (user_password : Option (String × String)) : Connection × Except Err Unit :=
  match user_password with
  | some (user, password) =>
    match authCmd c user password with
    | (c', Except.ok ()) => (c', Except.ok ())
    | (c', Except.error err) => (c'.close, Except.error err)
  | none => (c, Except.ok ())

/-- The observable outcome of `Connection::new`: a ready connection, an error
together with the final state of the locally constructed connection when one
existed at the point of failure (Rust drops it; carrying it makes the state
of its socket observable), or a process abort (`unwrap` panicking). -/
inductive NewOutcome where
  | ok (c : Connection)
  | err (e : Err) (dropped : Option Connection)
  | panicked
  deriving DecidableEq, Repr

/-- The connection record built by `Connection::new` before authentication:
fresh buffer, zero bytes read, timeouts from the policy, and an initial idle
deadline of now + idle timeout when an idle timeout is configured. -/
def Connection.initState (policy : ClientPolicy) (stream : Stream) (now : Nat) :
    Connection :=
  { buffer := Buffer.new policy.buffer_reclaim_threshold
    bytes_read := 0
    timeout := policy.timeout
    conn := stream
    idle_timeout := policy.idle_timeout
    idle_deadline :=
      match policy.idle_timeout with
      | none => none
      | some timeout => some (now + timeout) }

/-- The transport-selection block of `Connection::new`: when a TLS
configuration is present, build the client session and dial a second socket
(`Except.ok none` encodes the panic of `conn.unwrap()` when the client
session could not be created); otherwise use the first socket directly. -/
def Connection.selectStream (policy : ClientPolicy) (tcp_stream : TcpSock)
    (dial2 : Except Err TcpSock) (mkClientConn : Except Err Unit) :
    Except Err (Option Stream) :=
  match policy.tls_config with
  | some _config =>
    let conn := mkClientConn
    match dial2 with
    | Except.error e => Except.error e
    | Except.ok sock =>
      match conn with
      | Except.error _ => Except.ok none
      | Except.ok () => Except.ok (some (Stream.tls sock))
  | none => Except.ok (some (Stream.plain tcp_stream))

/-- `Connection::new`. `dial1` and `dial2` are the results of the first and
second `TcpStream::connect(addr)` calls; `mkClientConn` is the result of
`rustls::ClientConnection::new` (the source calls `.unwrap()` on it, which
panics on failure). After transport selection the connection record is built,
authenticated (closing the socket and propagating the error on failure),
refreshed, and returned. -/
def Connection.new (policy : ClientPolicy) (dial1 dial2 : Except Err TcpSock)
    (mkClientConn : Except Err Unit) (authCmd : AuthCmd) (now : Nat) :
    NewOutcome :=
  match dial1 with
  | Except.error e => .err e none
  | Except.ok tcp_stream =>
    match Connection.selectStream policy tcp_stream dial2 mkClientConn with
    | Except.error e => .err e none
    | Except.ok none => .panicked
    | Except.ok (some stream) =>
      let conn := Connection.initState policy stream now
      match conn.authenticate authCmd policy.user_password with
      | (c, Except.error e) => .err e (some c)
      | (c, Except.ok ()) => .ok (c.refresh now)

/-- The stream with its first `n` input bytes consumed. -/
def Stream.consume (s : Stream) (n : Nat) : Stream :=
  match s with
  | .tls t => .tls { t with input := t.input.drop n }
  | .plain t => .plain { t with input := t.input.drop n }

/-- Whether writes on the underlying socket currently succeed. -/
def Stream.writeOk (s : Stream) : Bool :=
  match s with
  | .tls t => t.writeOk
  | .plain t => t.writeOk

/-- The stream with `buf` appended to the bytes written so far. -/
def Stream.appendOutput (s : Stream) (buf : List Nat) : Stream :=
  match s with
  | .tls t => .tls { t with output := t.output ++ buf }
  | .plain t => .plain { t with output := t.output ++ buf }

/-- The four I/O operations whose success refreshes the idle deadline. -/
inductive IOOp where
  | write (buf : List Nat)
  | flush
  | read (bufLen : Nat)
  | readBuffer (size : Nat)
  deriving DecidableEq

/-- Apply one I/O operation at instant `now`. For `read`, the bytes handed to
the caller's slice are discarded so that all four operations have a uniform
result type. -/
def Connection.applyOp (c : Connection) (op : IOOp) (now : Nat) :
    Connection × Except Err Unit :=
  match op with
  | .write buf => c.write buf now
  | .flush => c.flush now
  | .read bufLen =>
    let (c', r) := c.read bufLen now
    (c', r.map (fun _ => ()))
  | .readBuffer size => c.read_buffer size now

/-- Any call a caller can make on an established connection that mutates it:
an I/O operation, `bookmark`, or `close`. -/
inductive Op where
  | io (op : IOOp)
  | bookmark
  | close
  deriving DecidableEq

/-- Apply one operation at instant `now`, keeping the mutated connection
whether or not the operation succeeded (a `&mut self` method leaves its
mutations in place on failure). -/
def Connection.applyAnyOp (c : Connection) (op : Op) (now : Nat) : Connection :=
  match op with
  | .io op => (c.applyOp op now).1
  | .bookmark => c.bookmark
  | .close => c.close

/-- Run a timestamped sequence of operations on a connection. -/
def Connection.runOps (c : Connection) (ops : List (Nat × Op)) : Connection :=
  match ops with
  | [] => c
  | (now, op) :: rest => (c.applyAnyOp op now).runOps rest

/-- The two inbound operations that consume bytes from the transport. -/
inductive ReadOp where
  | read (bufLen : Nat)
  | readBuffer (size : Nat)
  deriving DecidableEq

/-- The number of bytes a read operation requests. -/
def ReadOp.requested : ReadOp → Nat
  | .read n => n
  | .readBuffer n => n

/-- The I/O operation performing a read operation. -/
def ReadOp.toIOOp : ReadOp → IOOp
  | .read n => .read n
  | .readBuffer n => .readBuffer n

/-- Run a timestamped sequence of read operations, returning the final
connection only when every operation succeeded. -/
def Connection.runReads (c : Connection) (ops : List (Nat × ReadOp)) :
    Option Connection :=
  match ops with
  | [] => some c
  | (now, op) :: rest =>
    match c.applyOp op.toIOOp now with
    | (c', Except.ok ()) => c'.runReads rest
    | (_, Except.error _) => none

/-! ### Characterization lemmas for the primitive operations -/

theorem Stream.read_exact_ok (s : Stream) (n : Nat) (h : n ≤ s.avail) :
    s.read_exact n = (s.consume n, Except.ok (s.peek n)) := by
  cases s with
  | tls t =>
    simp only [Stream.avail] at h
    simp [Stream.read_exact, TcpSock.read_exact, Stream.consume, Stream.peek, h]
  | plain t =>
    simp only [Stream.avail] at h
    simp [Stream.read_exact, TcpSock.read_exact, Stream.consume, Stream.peek, h]

theorem Stream.read_exact_short (s : Stream) (n : Nat) (h : s.avail < n) :
    s.read_exact n = (s, Except.error Err.ioError) := by
  cases s with
  | tls t =>
    simp only [Stream.avail] at h
    simp [Stream.read_exact, TcpSock.read_exact, Nat.not_le.mpr h]
  | plain t =>
    simp only [Stream.avail] at h
    simp [Stream.read_exact, TcpSock.read_exact, Nat.not_le.mpr h]

theorem Stream.write_all_ok (s : Stream) (buf : List Nat) (h : s.writeOk = true) :
    s.write_all buf = (s.appendOutput buf, Except.ok ()) := by
  cases s with
  | tls t =>
    simp only [Stream.writeOk] at h
    simp [Stream.write_all, TcpSock.write_all, Stream.appendOutput, h]
  | plain t =>
    simp only [Stream.writeOk] at h
    simp [Stream.write_all, TcpSock.write_all, Stream.appendOutput, h]

theorem Stream.write_all_fail (s : Stream) (buf : List Nat) (h : s.writeOk = false) :
    s.write_all buf = (s, Except.error Err.ioError) := by
  cases s with
  | tls t =>
    simp only [Stream.writeOk] at h
    simp [Stream.write_all, TcpSock.write_all, h]
  | plain t =>
    simp only [Stream.writeOk] at h
    simp [Stream.write_all, TcpSock.write_all, h]

theorem Stream.close_isShutdown (s : Stream) : s.close.isShutdown = true := by
  cases s <;> simp [Stream.close, Stream.isShutdown]

theorem Stream.peek_length (s : Stream) (n : Nat) (h : n ≤ s.avail) :
    (s.peek n).length = n := by
  cases s with
  | tls t =>
    simp only [Stream.avail] at h
    simp [Stream.peek, List.length_take]
    omega
  | plain t =>
    simp only [Stream.avail] at h
    simp [Stream.peek, List.length_take]
    omega

theorem Connection.read_ok (c : Connection) (n now : Nat) (h : n ≤ c.conn.avail) :
    c.read n now =
      (({ c with conn := c.conn.consume n,
                 bytes_read := c.bytes_read + n }).refresh now,
        Except.ok (c.conn.peek n)) := by
  simp [Connection.read, Stream.read_exact_ok c.conn n h]

theorem Connection.read_short (c : Connection) (n now : Nat) (h : c.conn.avail < n) :
    c.read n now = (c, Except.error Err.ioError) := by
  simp [Connection.read, Stream.read_exact_short c.conn n h]

theorem Connection.write_ok (c : Connection) (buf : List Nat) (now : Nat)
    (h : c.conn.writeOk = true) :
    c.write buf now =
      (({ c with conn := c.conn.appendOutput buf }).refresh now, Except.ok ()) := by
  simp [Connection.write, Stream.write_all_ok c.conn buf h]

theorem Connection.write_fail (c : Connection) (buf : List Nat) (now : Nat)
    (h : c.conn.writeOk = false) :
    c.write buf now = (c, Except.error Err.ioError) := by
  simp [Connection.write, Stream.write_all_fail c.conn buf h]

theorem Connection.flush_ok (c : Connection) (now : Nat)
    (h : c.conn.writeOk = true) :
    c.flush now =
      (({ c with conn := c.conn.appendOutput c.buffer.data_buffer }).refresh now,
        Except.ok ()) := by
  simp [Connection.flush, Stream.write_all_ok c.conn c.buffer.data_buffer h]

theorem Connection.flush_fail (c : Connection) (now : Nat)
    (h : c.conn.writeOk = false) :
    c.flush now = (c, Except.error Err.ioError) := by
  simp [Connection.flush, Stream.write_all_fail c.conn c.buffer.data_buffer h]

theorem Connection.read_buffer_ok (c : Connection) (n now : Nat)
    (h : n ≤ c.conn.avail) :
    c.read_buffer n now =
      (({ c with conn := c.conn.consume n,
                 buffer := { data_buffer := c.conn.peek n, offset := 0,
                             reclaim_threshold := c.buffer.reclaim_threshold },
                 bytes_read := c.bytes_read + n }).refresh now,
        Except.ok ()) := by
  simp [Connection.read_buffer, Buffer.resize_buffer, Buffer.reset_offset,
    Stream.read_exact_ok c.conn n h]

theorem Connection.read_buffer_short (c : Connection) (n now : Nat)
    (h : c.conn.avail < n) :
    c.read_buffer n now =
      ({ c with buffer := { c.buffer with
           data_buffer := c.buffer.data_buffer.take n ++
             List.replicate (n - c.buffer.data_buffer.length) 0 } },
        Except.error Err.ioError) := by
  simp [Connection.read_buffer, Buffer.resize_buffer,
    Stream.read_exact_short c.conn n h]

theorem Connection.refresh_idle_deadline (c : Connection) (now : Nat) :
    (c.refresh now).idle_deadline =
      (match c.idle_timeout with
       | none => none
       | some t => some (now + t)) := rfl

theorem Connection.is_idle_iff_deadline (c : Connection) (now : Nat) :
    c.is_idle now = true ↔ ∃ dl, c.idle_deadline = some dl ∧ dl ≤ now := by
  cases h : c.idle_deadline <;> simp [Connection.is_idle, h, ge_iff_le]

/-! ### Lemmas about `applyOp` -/

theorem applyOp_ok_idle (c : Connection) (op : IOOp) (now : Nat) (c' : Connection)
    (h : c.applyOp op now = (c', Except.ok ())) :
    c'.idle_deadline = (match c.idle_timeout with
      | none => none
      | some t => some (now + t)) ∧
    c'.idle_timeout = c.idle_timeout := by
  cases op with
  | write buf =>
    cases hw : c.conn.writeOk with
    | true =>
      simp only [Connection.applyOp, Connection.write_ok c buf now hw,
        Prod.mk.injEq] at h
      obtain ⟨h1, -⟩ := h
      subst h1
      exact ⟨rfl, rfl⟩
    | false =>
      simp [Connection.applyOp, Connection.write_fail c buf now hw] at h
  | flush =>
    cases hw : c.conn.writeOk with
    | true =>
      simp only [Connection.applyOp, Connection.flush_ok c now hw,
        Prod.mk.injEq] at h
      obtain ⟨h1, -⟩ := h
      subst h1
      exact ⟨rfl, rfl⟩
    | false =>
      simp [Connection.applyOp, Connection.flush_fail c now hw] at h
  | read n =>
    rcases le_or_lt n c.conn.avail with hle | hlt
    · simp only [Connection.applyOp, Connection.read_ok c n now hle, Except.map,
        Prod.mk.injEq] at h
      obtain ⟨h1, -⟩ := h
      subst h1
      exact ⟨rfl, rfl⟩
    · simp [Connection.applyOp, Connection.read_short c n now hlt, Except.map] at h
  | readBuffer n =>
    rcases le_or_lt n c.conn.avail with hle | hlt
    · simp only [Connection.applyOp, Connection.read_buffer_ok c n now hle,
        Prod.mk.injEq] at h
      obtain ⟨h1, -⟩ := h
      subst h1
      exact ⟨rfl, rfl⟩
    · simp [Connection.applyOp, Connection.read_buffer_short c n now hlt] at h

theorem applyOp_fst_idle (c : Connection) (op : IOOp) (now : Nat) :
    (c.applyOp op now).1.idle_timeout = c.idle_timeout ∧
    ((c.applyOp op now).1.idle_deadline = c.idle_deadline ∨
      (c.applyOp op now).1.idle_deadline =
        (match c.idle_timeout with
         | none => none
         | some t => some (now + t))) := by
  cases op with
  | write buf =>
    cases hw : c.conn.writeOk with
    | true =>
      simp only [Connection.applyOp, Connection.write_ok c buf now hw]
      exact ⟨rfl, Or.inr rfl⟩
    | false =>
      simp [Connection.applyOp, Connection.write_fail c buf now hw]
  | flush =>
    cases hw : c.conn.writeOk with
    | true =>
      simp only [Connection.applyOp, Connection.flush_ok c now hw]
      exact ⟨rfl, Or.inr rfl⟩
    | false =>
      simp [Connection.applyOp, Connection.flush_fail c now hw]
  | read n =>
    rcases le_or_lt n c.conn.avail with hle | hlt
    · simp only [Connection.applyOp, Connection.read_ok c n now hle]
      exact ⟨rfl, Or.inr rfl⟩
    · simp [Connection.applyOp, Connection.read_short c n now hlt, Except.map]
  | readBuffer n =>
    rcases le_or_lt n c.conn.avail with hle | hlt
    · simp only [Connection.applyOp, Connection.read_buffer_ok c n now hle]
      exact ⟨rfl, Or.inr rfl⟩
    · simp [Connection.applyOp, Connection.read_buffer_short c n now hlt]

theorem applyAnyOp_none_idle (c : Connection) (op : Op) (now : Nat)
    (ht : c.idle_timeout = none) (hd : c.idle_deadline = none) :
    (c.applyAnyOp op now).idle_timeout = none ∧
    (c.applyAnyOp op now).idle_deadline = none := by
  cases op with
  | io op =>
    obtain ⟨h1, h2⟩ := applyOp_fst_idle c op now
    simp only [Connection.applyAnyOp]
    refine ⟨h1.trans ht, ?_⟩
    rcases h2 with h2 | h2
    · exact h2.trans hd
    · rw [h2, ht]
  | bookmark => exact ⟨ht, hd⟩
  | close => exact ⟨ht, hd⟩

theorem runOps_none_idle (ops : List (Nat × Op)) (c : Connection)
    (ht : c.idle_timeout = none) (hd : c.idle_deadline = none) :
    (c.runOps ops).idle_timeout = none ∧
    (c.runOps ops).idle_deadline = none := by
  induction ops generalizing c with
  | nil => exact ⟨ht, hd⟩
  | cons p rest ih =>
    obtain ⟨now, op⟩ := p
    obtain ⟨h1, h2⟩ := applyAnyOp_none_idle c op now ht hd
    exact ih (c.applyAnyOp op now) h1 h2

theorem readOp_ok_bytes (c : Connection) (op : ReadOp) (now : Nat)
    (c' : Connection) (h : c.applyOp op.toIOOp now = (c', Except.ok ())) :
    c'.bytes_read = c.bytes_read + op.requested := by
  cases op with
  | read n =>
    rcases le_or_lt n c.conn.avail with hle | hlt
    · simp only [ReadOp.toIOOp, Connection.applyOp, Connection.read_ok c n now hle,
        Except.map, Prod.mk.injEq] at h
      obtain ⟨h1, -⟩ := h
      subst h1
      rfl
    · simp [ReadOp.toIOOp, Connection.applyOp, Connection.read_short c n now hlt,
        Except.map] at h
  | readBuffer n =>
    rcases le_or_lt n c.conn.avail with hle | hlt
    · simp only [ReadOp.toIOOp, Connection.applyOp,
        Connection.read_buffer_ok c n now hle, Prod.mk.injEq] at h
      obtain ⟨h1, -⟩ := h
      subst h1
      rfl
    · simp [ReadOp.toIOOp, Connection.applyOp,
        Connection.read_buffer_short c n now hlt] at h

theorem runReads_bytes (ops : List (Nat × ReadOp)) (c c' : Connection)
    (h : c.runReads ops = some c') :
    c'.bytes_read = c.bytes_read + (ops.map (fun p => p.2.requested)).sum := by
  induction ops generalizing c with
  | nil =>
    simp only [Connection.runReads, Option.some.injEq] at h
    subst h
    simp
  | cons p rest ih =>
    obtain ⟨now, op⟩ := p
    simp only [Connection.runReads] at h
    rcases hstep : c.applyOp op.toIOOp now with ⟨c1, r⟩
    rw [hstep] at h
    cases r with
    | error e => exact Option.noConfusion h
    | ok u =>
      cases u
      have hb := readOp_ok_bytes c op now c1 hstep
      have hrest := ih c1 h
      simp only [List.map_cons, List.sum_cons]
      omega

/-! ### Lemmas about `Connection.new` -/

theorem new_ok_shape (policy : ClientPolicy) (dial1 dial2 : Except Err TcpSock)
    (mk : Except Err Unit) (authCmd : AuthCmd) (now0 : Nat) (c : Connection)
    (hauth : ∀ c0 u p, ((authCmd c0 u p).1).idle_timeout = c0.idle_timeout)
    (h : Connection.new policy dial1 dial2 mk authCmd now0 = NewOutcome.ok c) :
    c.idle_timeout = policy.idle_timeout ∧
    c.idle_deadline = (match policy.idle_timeout with
      | none => none
      | some t => some (now0 + t)) := by
  cases dial1 with
  | error e => simp [Connection.new] at h
  | ok s1 =>
    simp only [Connection.new] at h
    rcases hs : Connection.selectStream policy s1 dial2 mk with e | os
    · rw [hs] at h
      exact NewOutcome.noConfusion h
    · rw [hs] at h
      cases os with
      | none => exact NewOutcome.noConfusion h
      | some stream =>
        rcases hup : policy.user_password with - | up
        · simp only [Connection.authenticate, hup] at h
          injection h with h1
          subst h1
          exact ⟨rfl, rfl⟩
        · obtain ⟨u, p⟩ := up
          simp only [Connection.authenticate, hup] at h
          rcases hac : authCmd (Connection.initState policy stream now0) u p
            with ⟨c2, r2⟩
          rw [hac] at h
          cases r2 with
          | error e2 => exact NewOutcome.noConfusion h
          | ok u2 =>
            cases u2
            injection h with h1
            subst h1
            have h2 : c2.idle_timeout = policy.idle_timeout := by
              have h3 := hauth (Connection.initState policy stream now0) u p
              rw [hac] at h3
              exact h3
            refine ⟨h2, ?_⟩
            rw [Connection.refresh_idle_deadline, h2]

/-! ### Concrete fixtures used by witnesses and counterexamples -/

/-- A plain socket with five bytes available for reading. -/
def sockEx : TcpSock :=
  { input := [1, 2, 3, 4, 5], output := [], writeOk := true, shutdown := false }

/-- A live connection with a five-unit idle timeout over `sockEx`. -/
def connEx : Connection :=
  { timeout := none, idle_timeout := some 5, idle_deadline := none,
    conn := Stream.plain sockEx, bytes_read := 0, buffer := Buffer.new 0 }

/-- A connection whose buffer has a nonzero read offset and whose stream holds
fewer bytes than the next request. -/
def connOff : Connection :=
  { timeout := none, idle_timeout := none, idle_deadline := some 9,
    conn := Stream.plain
      { input := [7], output := [], writeOk := true, shutdown := false },
    bytes_read := 4,
    buffer := { data_buffer := [1, 2], offset := 2, reclaim_threshold := 0 } }

/-- A policy with credentials, no TLS, and no idle timeout. -/
def policyCreds : ClientPolicy :=
  { tls_config := none, buffer_reclaim_threshold := 0, timeout := none,
    idle_timeout := none, user_password := some ("alice", "secret") }

/-- A policy with no credentials, no TLS, and no idle timeout. -/
def policyPlain : ClientPolicy :=
  { tls_config := none, buffer_reclaim_threshold := 0, timeout := none,
    idle_timeout := none, user_password := none }

/-- `policyPlain` with a TLS configuration present. -/
def policyTls : ClientPolicy :=
  { policyPlain with tls_config := some () }

/-- A collaborator that always rejects the credentials. -/
def authFailCmd : AuthCmd := fun c _ _ => (c, Except.error Err.authenticationError)

/-- A collaborator that always accepts the credentials without touching the
connection. -/
def authOkCmd : AuthCmd := fun c _ _ => (c, Except.ok ())

/-! ### The claims -/

/-- C1: if credentials are configured and the authentication collaborator
fails at its invocation during construction, then `Connection::new` closes
the underlying socket before propagating the failure, returns exactly the
authentication error, and never returns a connection. The hypotheses place
construction past the dial and transport selection, i.e. at the point where
the collaborator actually runs. -/
theorem c1_auth_failure_closes_socket (policy : ClientPolicy)
    (dial1 dial2 : Except Err TcpSock) (mk : Except Err Unit) (authCmd : AuthCmd)
    (now : Nat) (u p : String) (e : Err) (s1 : TcpSock) (stream : Stream)
    (hup : policy.user_password = some (u, p))
    (hd1 : dial1 = Except.ok s1)
    (hs : Connection.selectStream policy s1 dial2 mk = Except.ok (some stream))
    (hfail : (authCmd (Connection.initState policy stream now) u p).2 =
      Except.error e) :
    (∃ cd, Connection.new policy dial1 dial2 mk authCmd now =
        NewOutcome.err e (some cd) ∧ cd.conn.isShutdown = true) ∧
    ∀ c, Connection.new policy dial1 dial2 mk authCmd now ≠ NewOutcome.ok c := by
  subst hd1
  rcases hac : authCmd (Connection.initState policy stream now) u p with ⟨c2, r2⟩
  rw [hac] at hfail
  replace hfail : r2 = Except.error e := hfail
  subst hfail
  have hnew : Connection.new policy (Except.ok s1) dial2 mk authCmd now =
      NewOutcome.err e (some c2.close) := by
    simp [Connection.new, hs, Connection.authenticate, hup, hac]
  refine ⟨⟨c2.close, hnew, ?_⟩, ?_⟩
  · exact Stream.close_isShutdown c2.conn
  · intro c hc
    rw [hnew] at hc
    exact NewOutcome.noConfusion hc

/-- C1 witness: a concrete construction with credentials against a rejecting
collaborator returns the authentication error with the socket shut down and
never a connection. -/
theorem c1_witness :
    (∃ cd, Connection.new policyCreds (Except.ok sockEx) (Except.ok sockEx)
        (Except.ok ()) authFailCmd 0 =
        NewOutcome.err Err.authenticationError (some cd) ∧
        cd.conn.isShutdown = true) ∧
    ∀ c, Connection.new policyCreds (Except.ok sockEx) (Except.ok sockEx)
        (Except.ok ()) authFailCmd 0 ≠ NewOutcome.ok c :=
  c1_auth_failure_closes_socket policyCreds (Except.ok sockEx) (Except.ok sockEx)
    (Except.ok ()) authFailCmd 0 "alice" "secret" Err.authenticationError sockEx
    (Stream.plain sockEx) rfl rfl rfl rfl

/-- C2: after every successful write, flush, read or read_buffer at instant
`now`, the idle deadline equals now + idle timeout when one is configured and
is cleared when none is configured; consequently, with a positive idle
timeout `T`, the connection is not idle at `now` and is idle at an instant
iff at least `T` has elapsed since `now` with no further I/O. -/
theorem c2_successful_io_refreshes_idle_state (c c' : Connection) (op : IOOp)
    (now : Nat) (h : c.applyOp op now = (c', Except.ok ())) :
    (∀ T, c.idle_timeout = some T → c'.idle_deadline = some (now + T)) ∧
    (c.idle_timeout = none → c'.idle_deadline = none) ∧
    (∀ T, c.idle_timeout = some T → 0 < T →
      c'.is_idle now = false ∧
      (∀ later, c'.is_idle later = true ↔ now + T ≤ later)) := by
  obtain ⟨hdl, -⟩ := applyOp_ok_idle c op now c' h
  refine ⟨?_, ?_, ?_⟩
  · intro T hT
    rw [hdl, hT]
  · intro hT
    rw [hdl, hT]
  · intro T hT hpos
    have hdl2 : c'.idle_deadline = some (now + T) := by rw [hdl, hT]
    constructor
    · simp only [Connection.is_idle, hdl2, ge_iff_le, decide_eq_false_iff_not]
      omega
    · intro later
      simp [Connection.is_idle, hdl2, ge_iff_le]

/-- C2 witness: a concrete successful read on a connection with idle timeout 5
at instant 0 leaves the connection non-idle at 0 and idle at 7. -/
theorem c2_witness :
    (connEx.applyOp (IOOp.read 1) 0).1.is_idle 0 = false ∧
    (connEx.applyOp (IOOp.read 1) 0).1.is_idle 7 = true := by
  have h := c2_successful_io_refreshes_idle_state connEx
    ((connEx.applyOp (IOOp.read 1) 0).1) (IOOp.read 1) 0 rfl
  have h3 := h.2.2 5 rfl (by decide)
  exact ⟨h3.1, (h3.2 7).mpr (by decide)⟩

/-- C3: when fewer bytes are available than the target slice requires, `read`
returns an I/O error and leaves `bytes_read` unchanged. -/
theorem c3_short_read_fails_without_partial_credit (c : Connection)
    (bufLen now : Nat) (h : c.conn.avail < bufLen) :
    (c.read bufLen now).2 = Except.error Err.ioError ∧
    (c.read bufLen now).1.bytes_read = c.bytes_read := by
  rw [Connection.read_short c bufLen now h]
  exact ⟨rfl, rfl⟩

/-- C3 witness: reading 10 bytes when only 5 are available fails with an I/O
error and does not change the byte counter. -/
theorem c3_witness :
    (connEx.read 10 0).2 = Except.error Err.ioError ∧
    (connEx.read 10 0).1.bytes_read = connEx.bytes_read :=
  c3_short_read_fails_without_partial_credit connEx 10 0 (by decide)

/-- C4 counterexample: with a TLS configuration present, both dials
succeeding, and the TLS client session failing to build, `Connection::new`
panics (the source calls `.unwrap()` on the `ClientConnection::new` result)
instead of returning a TLS error to the caller. -/
theorem c4_counterexample :
    Connection.new policyTls (Except.ok sockEx) (Except.ok sockEx)
        (Except.error Err.tlsError) authOkCmd 0 = NewOutcome.panicked ∧
    NewOutcome.panicked ≠ NewOutcome.err Err.tlsError none :=
  ⟨rfl, by decide⟩

/-- C4 amended: when an encryption configuration is present and the TLS
client session cannot be created during construction (with both dials
succeeding), `Connection::new` aborts the process by panicking rather than
returning a TLS error. -/
theorem c4_amended_tls_failure_panics (policy : ClientPolicy)
    (dial1 dial2 : Except Err TcpSock) (authCmd : AuthCmd) (now : Nat)
    (e : Err) (s1 s2 : TcpSock)
    (htls : policy.tls_config = some ())
    (hd1 : dial1 = Except.ok s1) (hd2 : dial2 = Except.ok s2) :
    Connection.new policy dial1 dial2 (Except.error e) authCmd now =
      NewOutcome.panicked := by
  subst hd1
  subst hd2
  simp [Connection.new, Connection.selectStream, htls]

/-- C4 witness: the amended statement at a concrete TLS policy and failing
session build. -/
theorem c4_amended_witness :
    Connection.new policyTls (Except.ok sockEx) (Except.ok sockEx)
      (Except.error Err.tlsError) authFailCmd 0 = NewOutcome.panicked :=
  c4_amended_tls_failure_panics policyTls (Except.ok sockEx) (Except.ok sockEx)
    authFailCmd 0 Err.tlsError sockEx sockEx rfl rfl rfl

/-- C5: `bookmark` always resets `bytes_read` to 0, and after the bookmark a
successful sequence of read and read_buffer operations leaves `bytes_read`
equal to exactly the sum of the byte counts they requested. -/
theorem c5_bookmark_resets_and_reads_sum (c : Connection)
    (ops : List (Nat × ReadOp)) (c' : Connection)
    (h : c.bookmark.runReads ops = some c') :
    c.bookmark.bytes_read = 0 ∧
    c'.bytes_read = (ops.map (fun p => p.2.requested)).sum := by
  refine ⟨rfl, ?_⟩
  have hsum := runReads_bytes ops c.bookmark c' h
  simpa [Connection.bookmark] using hsum

/-- The timestamped read sequence used by the C5 witness. -/
def readsW : List (Nat × ReadOp) := [(0, ReadOp.read 1), (1, ReadOp.readBuffer 2)]

/-- The connection obtained by running `readsW` on `connEx` after a bookmark. -/
def connRead3 : Connection :=
  { timeout := none, idle_timeout := some 5, idle_deadline := some 6,
    conn := Stream.plain
      { input := [4, 5], output := [], writeOk := true, shutdown := false },
    bytes_read := 3,
    buffer := { data_buffer := [2, 3], offset := 0, reclaim_threshold := 0 } }

/-- C5 witness: after a bookmark, a read of 1 byte and a read_buffer of 2
bytes leave `bytes_read` at exactly 3. -/
theorem c5_witness :
    connEx.bookmark.bytes_read = 0 ∧ connRead3.bytes_read = 3 := by
  have h := c5_bookmark_resets_and_reads_sum connEx readsW connRead3 (by decide)
  exact ⟨h.1, h.2⟩

/-- C6: a connection constructed under a policy with no idle timeout is never
idle: after any sequence of operations at any instants, `is_idle` is false at
every instant. The collaborator hypothesis states that authentication drives
I/O through the connection and therefore does not alter the configured idle
timeout. -/
theorem c6_no_idle_timeout_never_idle (policy : ClientPolicy)
    (dial1 dial2 : Except Err TcpSock) (mk : Except Err Unit) (authCmd : AuthCmd)
    (now0 : Nat) (c : Connection)
    (hpol : policy.idle_timeout = none)
    (hauth : ∀ c0 u p, ((authCmd c0 u p).1).idle_timeout = c0.idle_timeout)
    (hnew : Connection.new policy dial1 dial2 mk authCmd now0 = NewOutcome.ok c)
    (ops : List (Nat × Op)) (now : Nat) :
    (c.runOps ops).is_idle now = false := by
  obtain ⟨ht, hd⟩ := new_ok_shape policy dial1 dial2 mk authCmd now0 c hauth hnew
  rw [hpol] at ht hd
  obtain ⟨-, hd2⟩ := runOps_none_idle ops c ht hd
  simp [Connection.is_idle, hd2]

/-- The connection constructed by the C6 witness. -/
def connPlainNew : Connection :=
  (Connection.initState policyPlain (Stream.plain sockEx) 0).refresh 0

/-- C6 witness: a concretely constructed connection with no idle timeout is
not idle even 1000 time units after its last operation. -/
theorem c6_witness :
    (connPlainNew.runOps [(0, Op.io (IOOp.read 2)), (100, Op.bookmark)]).is_idle
      1000 = false :=
  c6_no_idle_timeout_never_idle policyPlain (Except.ok sockEx) (Except.ok sockEx)
    (Except.ok ()) authOkCmd 0 connPlainNew rfl (fun _ _ _ => rfl) rfl
    [(0, Op.io (IOOp.read 2)), (100, Op.bookmark)] 1000

/-- C7: a successful `read_buffer(N)` resizes the staging buffer to `N`
bytes, fills it with exactly the next `N` transport bytes (consuming them),
resets the buffer's read offset to 0 regardless of its prior value,
increments `bytes_read` by `N`, and refreshes the idle deadline; when fewer
than `N` bytes are available it fails with an I/O error. -/
theorem c7_read_buffer_contract (c : Connection) (n now : Nat) :
    (n ≤ c.conn.avail →
      ∃ c', c.read_buffer n now = (c', Except.ok ()) ∧
        c'.buffer.data_buffer.length = n ∧
        c'.buffer.data_buffer = c.conn.peek n ∧
        c'.buffer.offset = 0 ∧
        c'.conn = c.conn.consume n ∧
        c'.bytes_read = c.bytes_read + n ∧
        c'.idle_deadline = (match c.idle_timeout with
          | none => none
          | some t => some (now + t))) ∧
    (c.conn.avail < n →
      (c.read_buffer n now).2 = Except.error Err.ioError) := by
  constructor
  · intro hle
    refine ⟨_, Connection.read_buffer_ok c n now hle, ?_, rfl, rfl, rfl, rfl, rfl⟩
    exact Stream.peek_length c.conn n hle
  · intro hlt
    rw [Connection.read_buffer_short c n now hlt]

/-- C7 witness: a concrete `read_buffer(2)` on a connection whose buffer
starts empty with offset 0 observes all the promised postconditions. -/
theorem c7_witness :
    ∃ c', connEx.read_buffer 2 0 = (c', Except.ok ()) ∧
      c'.buffer.data_buffer.length = 2 ∧
      c'.buffer.data_buffer = connEx.conn.peek 2 ∧
      c'.buffer.offset = 0 ∧
      c'.conn = connEx.conn.consume 2 ∧
      c'.bytes_read = connEx.bytes_read + 2 ∧
      c'.idle_deadline = (match connEx.idle_timeout with
        | none => none
        | some t => some (0 + t)) :=
  (c7_read_buffer_contract connEx 2 0).1 (by decide)

/-- C8: with no credentials configured, construction never invokes the
authentication collaborator — its outcome is identical for every collaborator
— and, once the dial and the transport selection succeed, it returns a ready
connection with no authentication step. -/
theorem c8_no_credentials_skips_auth (policy : ClientPolicy)
    (dial1 dial2 : Except Err TcpSock) (mk : Except Err Unit) (now : Nat)
    (hup : policy.user_password = none) :
    (∀ a1 a2 : AuthCmd, Connection.new policy dial1 dial2 mk a1 now =
      Connection.new policy dial1 dial2 mk a2 now) ∧
    (∀ s1 stream, dial1 = Except.ok s1 →
      Connection.selectStream policy s1 dial2 mk = Except.ok (some stream) →
      ∀ a : AuthCmd, Connection.new policy dial1 dial2 mk a now =
        NewOutcome.ok ((Connection.initState policy stream now).refresh now)) := by
  constructor
  · intro a1 a2
    cases dial1 with
    | error e => rfl
    | ok s1 =>
      rcases hs : Connection.selectStream policy s1 dial2 mk with e | os
      · simp [Connection.new, hs]
      · cases os with
        | none => simp [Connection.new, hs]
        | some stream => simp [Connection.new, hs, Connection.authenticate, hup]
  · intro s1 stream hd1 hs a
    subst hd1
    simp [Connection.new, hs, Connection.authenticate, hup]

/-- C8 witness: with no credentials, construction succeeds even when the
collaborator would reject everything — evidence it is never invoked. -/
theorem c8_witness :
    Connection.new policyPlain (Except.ok sockEx) (Except.ok sockEx)
        (Except.ok ()) authFailCmd 0 =
      NewOutcome.ok
        ((Connection.initState policyPlain (Stream.plain sockEx) 0).refresh 0) :=
  (c8_no_credentials_skips_auth policyPlain (Except.ok sockEx) (Except.ok sockEx)
    (Except.ok ()) 0 rfl).2 sockEx (Stream.plain sockEx) rfl rfl authFailCmd

/-- C9 counterexample: immediately after a successful read on a connection
with a configured idle timeout the idle deadline is present — set by the
refresh performed inside the read — not absent as the claim states. -/
theorem c9_counterexample :
    (connEx.read 1 0).2 = Except.ok [1] ∧
    (connEx.read 1 0).1.idle_deadline = some 5 ∧
    (connEx.read 1 0).1.idle_deadline ≠ none :=
  ⟨rfl, rfl, by decide⟩

/-- C9 amended: immediately after any successful I/O operation the idle
deadline equals now + idle timeout when an idle timeout is configured and is
absent when none is configured (every successful operation ends in a
refresh); and `is_idle` is true iff the deadline is present and the current
instant is at or past it. -/
theorem c9_amended_idle_deadline_after_io (c c' : Connection) (op : IOOp)
    (now : Nat) (h : c.applyOp op now = (c', Except.ok ())) :
    c'.idle_deadline = (match c.idle_timeout with
      | none => none
      | some t => some (now + t)) ∧
    ∀ t2, c'.is_idle t2 = true ↔ ∃ dl, c'.idle_deadline = some dl ∧ dl ≤ t2 := by
  obtain ⟨hdl, -⟩ := applyOp_ok_idle c op now c' h
  exact ⟨hdl, fun t2 => Connection.is_idle_iff_deadline c' t2⟩

/-- C9 witness: the amended statement instantiated at a concrete successful
read at instant 0 on a connection with idle timeout 5. -/
theorem c9_amended_witness :
    (connEx.applyOp (IOOp.read 1) 0).1.idle_deadline = some 5 := by
  have h := c9_amended_idle_deadline_after_io connEx
    ((connEx.applyOp (IOOp.read 1) 0).1) (IOOp.read 1) 0 rfl
  exact h.1

/-- C10: when the transport cannot supply `N` bytes, `read_buffer(N)` returns
an I/O error with `bytes_read` and the idle deadline unchanged, yet the
staging buffer has already been resized to `N` bytes and its read offset has
not been reset. -/
theorem c10_read_buffer_failure_not_atomic (c : Connection) (n now : Nat)
    (h : c.conn.avail < n) :
    ∃ c', c.read_buffer n now = (c', Except.error Err.ioError) ∧
      c'.bytes_read = c.bytes_read ∧
      c'.idle_deadline = c.idle_deadline ∧
      c'.buffer.data_buffer.length = n ∧
      c'.buffer.offset = c.buffer.offset := by
  refine ⟨_, Connection.read_buffer_short c n now h, rfl, rfl, ?_, rfl⟩
  simp only [List.length_append, List.length_take, List.length_replicate]
  omega

/-- C10 witness: a failing `read_buffer(5)` over a 1-byte stream leaves the
byte counter, deadline and offset untouched while the buffer is resized. -/
theorem c10_witness :
    ∃ c', connOff.read_buffer 5 0 = (c', Except.error Err.ioError) ∧
      c'.bytes_read = connOff.bytes_read ∧
      c'.idle_deadline = connOff.idle_deadline ∧
      c'.buffer.data_buffer.length = 5 ∧
      c'.buffer.offset = connOff.buffer.offset :=
  c10_read_buffer_failure_not_atomic connOff 5 0 (by decide)

end Aerospike
